import Mathlib

/-!
Shallow embedding of the XDC green-lending agent's blockchain core
(`src/blockchain/xdc_interact.py`) and of the score computations of the
simulation agents (`src/agents/impact_assessor.py`, `src/agents/goat_agent.py`).

Modelling conventions:
* Python exceptions are modelled with `Except PyErr`; every external call that
  can raise (web3 RPC reads, checksumming, signing, broadcasting, receipt
  waiting) is a field of an environment record returning `Except PyErr _`.
* A Python `try: ... except: return None` boundary is the `pyCatch` combinator:
  an `Except`-valued body whose `.error` outcome is converted to the fallback.
* Amounts in the smallest unit (wei) are `Nat`; decimal amounts (XDC/ether,
  produced by `from_wei(_, 'ether')`, which yields an exact `Decimal`) are `ℚ`.
* `print` side effects are dropped, except that the chain-id warning of
  `connect_to_xdc_testnet` is recorded as a boolean in the returned outcome,
  and the signing / broadcasting calls of `send_xdc_transaction` are counted
  in an `Effects` record, so that "no broadcast happened" is statable.
-/

/-- A Python exception value (only its message matters to the embedded code). -/
abbrev PyErr := String

/-- `try: body except: fallback` where the body's normal `return` is the
`.ok` value and any raise inside the body is the `.error` value. -/
def pyCatch {α : Type} (body : Except PyErr α) (fallback : α) : α :=
  match body with
  | .ok a => a
  | .error _ => fallback

/-- `w3.to_wei(g, 'gwei')`: Gwei to wei. -/
def to_wei_gwei (g : Nat) : Nat := g * 10 ^ 9

/-- `w3.from_wei(w, 'ether')`: wei to an exact decimal XDC amount. -/
def from_wei_ether (w : Nat) : ℚ := (w : ℚ) / 10 ^ 18

/-- `w3.to_wei(d, 'ether')`: a decimal XDC amount to wei. -/
def to_wei_ether (d : ℚ) : ℤ := ⌊d * 10 ^ 18⌋

/-- `MIN_GAS_PRICE_GWEI = 250` (xdc_interact.py line 13). -/
def MIN_GAS_PRICE_GWEI : Nat := 250

/-! ## Gas price advisor: `ai_agent_optimize_gas_price` (lines 49-77) -/

/-- `ai_agent_optimize_gas_price(w3_instance, ...)`.  The single effectful read
it performs, `w3_instance.eth.gas_price`, is passed in as its `Except`-valued
result; an exception there propagates to the caller (the function has no
`try` of its own). -/
def ai_agent_optimize_gas_price (eth_gas_price : Except PyErr Nat) :
    Except PyErr Nat :=
  match eth_gas_price with
  | .error e => .error e
  | .ok network_gas_price_wei =>
    let min_gas_price_wei := to_wei_gwei MIN_GAS_PRICE_GWEI
    if network_gas_price_wei < min_gas_price_wei then
      .ok min_gas_price_wei
    else
      .ok network_gas_price_wei

/-- The per-call state visible to `ai_agent_optimize_gas_price`: the value the
`w3_instance.eth.gas_price` read would return.  The function body assigns no
attribute and no global (it only reads, prints and sleeps), so a call is
modelled as returning the state unchanged. -/
structure GasCallState where
  eth_gas_price : Except PyErr Nat

/-- One call of `ai_agent_optimize_gas_price` as a state transformer:
result together with the (unchanged) state after the call. -/
def ai_agent_optimize_gas_price_call (s : GasCallState) :
    (Except PyErr Nat) × GasCallState :=
  (ai_agent_optimize_gas_price s.eth_gas_price, s)

/-! ## Connector: `connect_to_xdc_testnet` (lines 16-32) -/

/-- Environment for `connect_to_xdc_testnet`: the constructor
`Web3(Web3.HTTPProvider(rpc_url))` and the reads made on the instance.
Handles are identified by an opaque `Nat`. -/
structure ConnEnv where
  mkWeb3 : Except PyErr Nat
  is_connected : Nat → Except PyErr Bool
  chain_id : Nat → Except PyErr Nat

/-- Outcome of `connect_to_xdc_testnet`: the returned value (`w3` or `None`)
and whether the "Unexpected Chain ID" warning print of line 25 fired. -/
structure ConnectOutcome where
  handle : Option Nat
  warned_chain_id : Bool
deriving DecidableEq

/-- The `try:` body of `connect_to_xdc_testnet` (lines 19-29). -/
def connect_body (env : ConnEnv) : Except PyErr ConnectOutcome := do
  let w3 ← env.mkWeb3
  let c ← env.is_connected w3
  if c then do
    let cid ← env.chain_id w3
    pure ⟨some w3, decide (cid ≠ 51)⟩
  else
    pure ⟨none, false⟩

/-- `connect_to_xdc_testnet(rpc_url)`: the body under the
`except Exception: return None` boundary (lines 30-32). -/
def connect_to_xdc_testnet (env : ConnEnv) : ConnectOutcome :=
  pyCatch (connect_body env) ⟨none, false⟩

/-! ## Balance reader: `get_account_balance` (lines 35-46) -/

/-- Environment for `get_account_balance`: checksumming (which raises on an
invalid address) and the balance read, keyed by the address string passed. -/
structure BalEnv where
  to_checksum_address : String → Except PyErr String
  get_balance : String → Except PyErr Nat

/-- The `try:` body of `get_account_balance` (lines 37-43): checksum the
address, query the balance of the checksummed address, convert wei to XDC. -/
def get_account_balance_body (env : BalEnv) (address : String) :
    Except PyErr ℚ := do
  let checksum_address ← env.to_checksum_address address
  let balance_wei ← env.get_balance checksum_address
  pure (from_wei_ether balance_wei)

/-- `get_account_balance(w3_instance, address)`: body under the
`except Exception: return None` boundary (lines 44-46). -/
def get_account_balance (env : BalEnv) (address : String) : Option ℚ :=
  pyCatch ((get_account_balance_body env address).map some) none

/-! ## Transaction submitter: `send_xdc_transaction` (lines 80-153) -/

/-- The transaction dict built at lines 115-122. -/
structure Tx where
  nonce : Nat
  toAddr : String
  value : ℤ
  gas : Nat
  gasPrice : Nat
  chainId : Nat
deriving DecidableEq

/-- A transaction receipt as read at lines 134-136. -/
structure Receipt where
  status : Nat
  blockNumber : Nat
  gasUsed : Nat
deriving DecidableEq

/-- How many times `send_xdc_transaction` invoked signing
(`w3.eth.account.sign_transaction`, line 126) and broadcasting
(`w3.eth.send_raw_transaction`, line 128) during one call. -/
structure Effects where
  sign_calls : Nat
  broadcast_calls : Nat
deriving DecidableEq

/-- Environment for `send_xdc_transaction`: every effectful call it (or the
helpers it invokes on the same `w3_instance`) performs, each possibly
raising.  `sign_transaction` yields the signed raw payload;
`send_raw_transaction` yields the hex transaction hash;
`wait_for_transaction_receipt` raises on timeout (60s). -/
structure W3Env extends BalEnv where
  get_transaction_count : String → Except PyErr Nat
  eth_gas_price : Except PyErr Nat
  chain_id : Except PyErr Nat
  sign_transaction : Tx → String → Except PyErr String
  send_raw_transaction : String → Except PyErr String
  wait_for_transaction_receipt : String → Except PyErr Receipt

/-- The `try:` body of `send_xdc_transaction` (lines 86-140), with the
sign/broadcast call counts threaded alongside the result.  `.ok v` is a
plain `return v` from the body, `.error e` an exception reaching the
`except` clause of lines 142-153. -/
def send_body (env : W3Env) (private_key_str from_address to_address : String)
    (amount_xdc : ℚ) : Except PyErr (Option String) × Effects :=
  match env.to_checksum_address from_address with
  | .error e => (.error e, ⟨0, 0⟩)
  | .ok from_addr =>
  match env.to_checksum_address to_address with
  | .error e => (.error e, ⟨0, 0⟩)
  | .ok to_addr =>
  match env.get_transaction_count from_addr with
  | .error e => (.error e, ⟨0, 0⟩)
  | .ok nonce =>
  match ai_agent_optimize_gas_price env.eth_gas_price with
  | .error e => (.error e, ⟨0, 0⟩)
  | .ok gas_price =>
  let gas_limit := 21000
  let gas_cost_wei := gas_limit * gas_price
  let gas_cost_xdc := from_wei_ether gas_cost_wei
  -- `get_account_balance` has its own try/except and returns `None` on error
  match get_account_balance env.toBalEnv from_address with
  | none => (.ok none, ⟨0, 0⟩)          -- line 104: balance lookup failed
  | some sender_balance =>
  let amount_xdc_decimal := amount_xdc
  let total_required := amount_xdc_decimal + gas_cost_xdc
  if sender_balance < total_required then
    (.ok none, ⟨0, 0⟩)                  -- line 113: insufficient funds
  else
  match env.chain_id with               -- read while building the tx dict
  | .error e => (.error e, ⟨0, 0⟩)
  | .ok cid =>
  let tx : Tx :=
    ⟨nonce, to_addr, to_wei_ether amount_xdc_decimal, gas_limit, gas_price, cid⟩
  match env.sign_transaction tx private_key_str with
  | .error e => (.error e, ⟨1, 0⟩)
  | .ok signed_raw =>
  match env.send_raw_transaction signed_raw with
  | .error e => (.error e, ⟨1, 1⟩)
  | .ok tx_hash =>
  match env.wait_for_transaction_receipt tx_hash with
  | .error e => (.error e, ⟨1, 1⟩)      -- receipt timeout raises
  | .ok receipt =>
  if receipt.status = 1 then
    (.ok (some tx_hash), ⟨1, 1⟩)        -- line 137: return tx_hash.hex()
  else
    (.ok none, ⟨1, 1⟩)                  -- line 140: on-chain failure

/-- `send_xdc_transaction(w3, key, from, to, amount)`: the body under the
`except Exception: ... return None` boundary (lines 142-153), together with
the sign/broadcast call counts of the call. -/
def send_xdc_transaction (env : W3Env)
    (private_key_str from_address to_address : String) (amount_xdc : ℚ) :
    Option String × Effects :=
  let r := send_body env private_key_str from_address to_address amount_xdc
  (pyCatch r.1 none, r.2)

/-! ## Simulation agents: score computations -/

/-- Python's round-half-to-even on a rational, to the nearest integer. -/
def roundHalfEven (x : ℚ) : ℤ :=
  let f := ⌊x⌋
  let r := x - f
  if r < 1 / 2 then f
  else if 1 / 2 < r then f + 1
  else if f % 2 = 0 then f else f + 1

/-- Python's `round(x, 2)` on an exact value. -/
def pyRound2 (x : ℚ) : ℚ := (roundHalfEven (x * 100) : ℚ) / 100

/-- Python's `needle in hay` on strings, as a scan over the character list. -/
def charsContain (needle : List Char) : List Char → Bool
  | [] => needle.isEmpty
  | c :: t => needle.isPrefixOf (c :: t) || charsContain needle t

/-- Python's `needle in hay` for strings. -/
def strIn (needle hay : String) : Bool := charsContain needle.data hay.data

/-- `ImpactAssessorAgent.assess_impact`, the `impact_score` computation
(impact_assessor.py lines 58-91).  The `rwa_data.get(...)` reads are passed
as parameters; `project_description` only influences `feedback_notes`, which
are not modelled.  The final `round(..., 2)` is applied to an integer and is
the identity, so the score is the clamped integer total. -/
def assess_impact_score (co2_reduction energy_generated jobs_created
    water_savings : ℚ) (certification : String)
    (loan_amount loan_term_years : ℚ) : ℤ :=
  let s1 : ℤ :=
    if co2_reduction > 10000 then 30
    else if co2_reduction > 1000 then 15 else 0
  let s2 := s1 +
    (if energy_generated > 5000000 then 25
     else if energy_generated > 1000000 then 10 else 0)
  let s3 := s2 +
    (if jobs_created > 50 then 20
     else if jobs_created > 10 then 10 else 0)
  let s4 := s3 +
    (if water_savings > 1000000 then 15
     else if water_savings > 100000 then 5 else 0)
  let s5 := s4 +
    (if strIn "Gold" certification then 10
     else if strIn "Silver" certification then 5 else 0)
  let s6 := s5 + (if loan_amount > 500000 then 5 else 0)
  let s7 := s6 - (if loan_term_years > 5 then 5 else 0)
  min (max s7 0) 100

/-- `GOATAgent.analyze_and_execute`, the `financial_risk_score` computation
(goat_agent.py lines 27-36), with the `borrower_data.get(...)` reads passed
as parameters. -/
def goat_financial_risk_score (credit_score default_history
    debt_to_income_ratio : ℚ) : ℚ :=
  let s1 : ℚ := (1 - credit_score / 850) * 100
  let s2 := s1 + (if default_history > 0 then 20 else 0)
  let s3 := s2 +
    (if debt_to_income_ratio > 0.4 then (debt_to_income_ratio - 0.4) * 50
     else 0)
  pyRound2 (min (max s3 0) 100)

/-- `GOATAgent.analyze_and_execute`, the `impact_score` computation
(goat_agent.py lines 44-53).  `round(..., 2)` on the clamped integer total
is the identity. -/
def goat_impact_score (project_type : Option String)
    (co2_reduction energy_generated jobs_created : ℚ) : ℤ :=
  let s1 : ℤ := if project_type = some "solar" then 30 else 0
  let s2 := s1 + (if co2_reduction > 5000 then 40 else 0)
  let s3 := s2 + (if energy_generated > 1000000 then 30 else 0)
  let s4 := s3 + (if jobs_created > 10 then 10 else 0)
  min (max s4 0) 100

/-! ## Helper lemmas -/

theorem roundHalfEven_nonneg (x : ℚ) (hx : 0 ≤ x) : 0 ≤ roundHalfEven x := by
  have hf : (0 : ℤ) ≤ ⌊x⌋ := Int.floor_nonneg.mpr hx
  unfold roundHalfEven
  dsimp only
  split
  · exact hf
  · split
    · omega
    · split <;> omega

theorem roundHalfEven_le (x : ℚ) (B : ℤ) (hx : x ≤ (B : ℚ)) :
    roundHalfEven x ≤ B := by
  have hfB : ⌊x⌋ ≤ B := by
    calc ⌊x⌋ ≤ ⌊(B : ℚ)⌋ := Int.floor_le_floor hx
    _ = B := Int.floor_intCast B
  have hsucc : 1 / 2 ≤ x - (⌊x⌋ : ℚ) → ⌊x⌋ + 1 ≤ B := by
    intro hr
    have h1 : (⌊x⌋ : ℚ) + 1 / 2 ≤ x := by linarith
    have h2 : (⌊x⌋ : ℚ) < (B : ℚ) := by linarith
    have h3 : ⌊x⌋ < B := by exact_mod_cast h2
    omega
  unfold roundHalfEven
  dsimp only
  split
  · exact hfB
  · rename_i hlt
    split
    · rename_i hgt
      exact hsucc (le_of_lt hgt)
    · split
      · exact hfB
      · rename_i hgt _
        exact hsucc (by linarith [not_lt.mp hlt])

theorem pyRound2_mem (x : ℚ) (h0 : 0 ≤ x) (h1 : x ≤ 100) :
    0 ≤ pyRound2 x ∧ pyRound2 x ≤ 100 := by
  have hy0 : (0 : ℚ) ≤ x * 100 := by linarith
  have hy1 : x * 100 ≤ ((10000 : ℤ) : ℚ) := by push_cast; linarith
  have r0 := roundHalfEven_nonneg (x * 100) hy0
  have r1 := roundHalfEven_le (x * 100) 10000 hy1
  unfold pyRound2
  constructor
  · have h : (0 : ℚ) ≤ (roundHalfEven (x * 100) : ℚ) := by exact_mod_cast r0
    exact div_nonneg h (by norm_num)
  · have h : ((roundHalfEven (x * 100) : ℚ)) ≤ 10000 := by exact_mod_cast r1
    linarith

theorem ai_agent_max_eq (n : Nat) :
    ai_agent_optimize_gas_price (.ok n) = .ok (max n (to_wei_gwei MIN_GAS_PRICE_GWEI)) := by
  simp only [ai_agent_optimize_gas_price]
  rcases Nat.lt_or_ge n (to_wei_gwei MIN_GAS_PRICE_GWEI) with h | h
  · simp [h, Nat.max_eq_right (Nat.le_of_lt h)]
  · simp [Nat.not_lt.mpr h, Nat.max_eq_left h]

/-! ## Claim theorems -/

/-- C1: for every connected handle, `ai_agent_optimize_gas_price` returns
`max(networkSuggested, floor)` where the floor is the configured 250 Gwei in
wei; when `networkSuggested >= floor` the result is `networkSuggested`
exactly, and a 10 Gwei network suggestion is quoted at 250 Gwei. -/
theorem c1_quote_gas_price_is_max :
    (∀ n : Nat, ai_agent_optimize_gas_price (.ok n)
        = .ok (max n (to_wei_gwei MIN_GAS_PRICE_GWEI)))
    ∧ (∀ n : Nat, to_wei_gwei MIN_GAS_PRICE_GWEI ≤ n →
        ai_agent_optimize_gas_price (.ok n) = .ok n)
    ∧ ai_agent_optimize_gas_price (.ok (to_wei_gwei 10))
        = .ok (to_wei_gwei 250) := by
  refine ⟨fun n => ai_agent_max_eq n, fun n hn => ?_, ?_⟩
  · rw [ai_agent_max_eq n, Nat.max_eq_left hn]
  · rfl

/-- C1 witness: the second conjunct applied at a concrete suggested price of
300 Gwei, which is above the floor. -/
theorem c1_witness :
    to_wei_gwei MIN_GAS_PRICE_GWEI ≤ 300 * 10 ^ 9
    ∧ ai_agent_optimize_gas_price (.ok (300 * 10 ^ 9)) = .ok (300 * 10 ^ 9) :=
  ⟨by decide, c1_quote_gas_price_is_max.2.1 (300 * 10 ^ 9) (by decide)⟩

/-- C9: `ai_agent_optimize_gas_price` mutates no state, and two consecutive
calls with unchanged network-suggested price return the same result. -/
theorem c9_quote_idempotent_stateless (s : GasCallState) :
    (ai_agent_optimize_gas_price_call s).2 = s
    ∧ (ai_agent_optimize_gas_price_call
        ((ai_agent_optimize_gas_price_call s).2)).1
      = (ai_agent_optimize_gas_price_call s).1 :=
  ⟨rfl, rfl⟩

/-- C10: all simulated agent scores lie in [0, 100]: the impact assessor's
`impact_score`, and the GOAT agent's `financial_risk_score` and
`impact_score`. -/
theorem c10_scores_in_range (co2 energy jobs water : ℚ) (cert : String)
    (loan_amount loan_term : ℚ) (pt : Option String) (cs dh dti : ℚ) :
    (0 ≤ assess_impact_score co2 energy jobs water cert loan_amount loan_term
      ∧ assess_impact_score co2 energy jobs water cert loan_amount loan_term
        ≤ 100)
    ∧ (0 ≤ goat_financial_risk_score cs dh dti
      ∧ goat_financial_risk_score cs dh dti ≤ 100)
    ∧ (0 ≤ goat_impact_score pt co2 energy jobs
      ∧ goat_impact_score pt co2 energy jobs ≤ 100) := by
  refine ⟨⟨?_, ?_⟩, ?_, ⟨?_, ?_⟩⟩
  · exact le_min (le_max_right _ _) (by norm_num)
  · exact min_le_right _ _
  · unfold goat_financial_risk_score
    exact pyRound2_mem _ (le_min (le_max_right _ _) (by norm_num))
      (min_le_right _ _)
  · exact le_min (le_max_right _ _) (by norm_num)
  · exact min_le_right _ _

/-- Witness environment for C5: the connection constructor raises. -/
def c5_conn_env : ConnEnv :=
  ⟨.error "connection refused", fun _ => .ok true, fun _ => .ok 51⟩

/-- Witness environment for C5: checksumming raises (invalid address). -/
def c5_bal_env : BalEnv :=
  ⟨fun _ => .error "bad address", fun _ => .ok 0⟩

/-- Witness environment for C5: signing raises (invalid private key). -/
def c5_w3_env : W3Env where
  to_checksum_address := fun a => .ok a
  get_balance := fun _ => .ok (10 ^ 21)
  get_transaction_count := fun _ => .ok 0
  eth_gas_price := .ok 0
  chain_id := .ok 51
  sign_transaction := fun _ _ => .error "invalid private key"
  send_raw_transaction := fun _ => .ok "0xdead"
  wait_for_transaction_receipt := fun _ => .ok ⟨1, 1, 21000⟩

/-- C5: no exception propagates out of `connect_to_xdc_testnet`,
`get_account_balance` or `send_xdc_transaction`: whenever the respective
try-body raises, the function returns its null/failure value instead. -/
theorem c5_no_exception_escapes :
    (∀ (env : ConnEnv) (e : PyErr), connect_body env = .error e →
        connect_to_xdc_testnet env = ⟨none, false⟩)
    ∧ (∀ (env : BalEnv) (addr : String) (e : PyErr),
        get_account_balance_body env addr = .error e →
        get_account_balance env addr = none)
    ∧ (∀ (env : W3Env) (pk fa ta : String) (amt : ℚ) (e : PyErr),
        (send_body env pk fa ta amt).1 = .error e →
        (send_xdc_transaction env pk fa ta amt).1 = none) := by
  refine ⟨fun env e h => ?_, fun env addr e h => ?_,
    fun env pk fa ta amt e h => ?_⟩
  · rw [connect_to_xdc_testnet, h]; rfl
  · rw [get_account_balance, h]; rfl
  · rw [send_xdc_transaction]
    simp only [h]
    rfl

/-- C5 witness: the three boundaries at concrete raising environments. -/
theorem c5_witness :
    connect_to_xdc_testnet c5_conn_env = ⟨none, false⟩
    ∧ get_account_balance c5_bal_env "0xZZ" = none
    ∧ (send_xdc_transaction c5_w3_env "badkey" "0xA" "0xB" 1).1 = none :=
  ⟨c5_no_exception_escapes.1 c5_conn_env "connection refused" rfl,
   c5_no_exception_escapes.2.1 c5_bal_env "0xZZ" "bad address" rfl,
   c5_no_exception_escapes.2.2 c5_w3_env "badkey" "0xA" "0xB" 1
     "invalid private key" (by
       simp only [send_body, c5_w3_env, ai_agent_optimize_gas_price,
         get_account_balance, get_account_balance_body, pyCatch,
         from_wei_ether, to_wei_gwei, MIN_GAS_PRICE_GWEI, bind, Except.bind,
         pure, Except.pure, Except.map]
       norm_num)⟩

/-- C6: `get_account_balance` queries the balance of the checksummed form of
the given address, returns it converted from wei to XDC (divided by 10^18) on
success, and returns `none` when checksumming or the lookup raises. -/
theorem c6_balance_reader (env : BalEnv) (addr : String) :
    (∀ (ca : String) (bw : Nat), env.to_checksum_address addr = .ok ca →
        env.get_balance ca = .ok bw →
        get_account_balance env addr = some ((bw : ℚ) / 10 ^ 18))
    ∧ (∀ e : PyErr, env.to_checksum_address addr = .error e →
        get_account_balance env addr = none)
    ∧ (∀ (ca : String) (e : PyErr), env.to_checksum_address addr = .ok ca →
        env.get_balance ca = .error e →
        get_account_balance env addr = none) := by
  refine ⟨fun ca bw h1 h2 => ?_, fun e h1 => ?_, fun ca e h1 h2 => ?_⟩
  · simp [get_account_balance, get_account_balance_body, pyCatch,
      from_wei_ether, h1, h2, Except.map, bind, Except.bind, pure, Except.pure]
  · simp [get_account_balance, get_account_balance_body, pyCatch,
      h1, Except.map, bind, Except.bind]
  · simp [get_account_balance, get_account_balance_body, pyCatch,
      h1, h2, Except.map, bind, Except.bind]

/-- Witness environment for C6: a well-formed address with 2 XDC of balance,
readable only under its checksummed form. -/
def c6_bal_env : BalEnv :=
  ⟨fun _ => .ok "0xCHK",
   fun a => if a = "0xCHK" then .ok (2 * 10 ^ 18) else .error "unknown"⟩

/-- C6 witness: the success conjunct at a concrete environment. -/
theorem c6_witness :
    c6_bal_env.to_checksum_address "0xabc" = .ok "0xCHK"
    ∧ get_account_balance c6_bal_env "0xabc"
        = some (((2 * 10 ^ 18 : Nat) : ℚ) / 10 ^ 18) :=
  ⟨rfl, (c6_balance_reader c6_bal_env "0xabc").1 "0xCHK" (2 * 10 ^ 18) rfl rfl⟩

/-- C7: `connect_to_xdc_testnet` returns `None` when the connection attempt
raises or the provider reports not connected (including a raising
`is_connected` probe), and returns the handle when connected and the chain-id
read succeeds. -/
theorem c7_connect_failure_null (env : ConnEnv) :
    (∀ e : PyErr, env.mkWeb3 = .error e →
        (connect_to_xdc_testnet env).handle = none)
    ∧ (∀ w3 : Nat, env.mkWeb3 = .ok w3 → env.is_connected w3 = .ok false →
        (connect_to_xdc_testnet env).handle = none)
    ∧ (∀ (w3 : Nat) (e : PyErr), env.mkWeb3 = .ok w3 →
        env.is_connected w3 = .error e →
        (connect_to_xdc_testnet env).handle = none)
    ∧ (∀ w3 cid : Nat, env.mkWeb3 = .ok w3 → env.is_connected w3 = .ok true →
        env.chain_id w3 = .ok cid →
        (connect_to_xdc_testnet env).handle = some w3) := by
  refine ⟨fun e h1 => ?_, fun w3 h1 h2 => ?_, fun w3 e h1 h2 => ?_,
    fun w3 cid h1 h2 h3 => ?_⟩
  · simp [connect_to_xdc_testnet, connect_body, pyCatch, h1,
      bind, Except.bind, pure, Except.pure]
  · simp [connect_to_xdc_testnet, connect_body, pyCatch, h1, h2,
      bind, Except.bind, pure, Except.pure]
  · simp [connect_to_xdc_testnet, connect_body, pyCatch, h1, h2,
      bind, Except.bind, pure, Except.pure]
  · simp [connect_to_xdc_testnet, connect_body, pyCatch, h1, h2, h3,
      bind, Except.bind, pure, Except.pure]

/-- Witness environment for C7: a healthy connection with chain id 51. -/
def c7_conn_env : ConnEnv := ⟨.ok 7, fun _ => .ok true, fun _ => .ok 51⟩

/-- C7 witness: the success conjunct at a concrete environment. -/
theorem c7_witness : (connect_to_xdc_testnet c7_conn_env).handle = some 7 :=
  (c7_connect_failure_null c7_conn_env).2.2.2 7 51 rfl rfl rfl

/-- C8: a chain-id mismatch only sets the warning and still returns the
handle. -/
theorem c8_chain_mismatch_warns_only (env : ConnEnv) (w3 cid : Nat)
    (h1 : env.mkWeb3 = .ok w3) (h2 : env.is_connected w3 = .ok true)
    (h3 : env.chain_id w3 = .ok cid) (h4 : cid ≠ 51) :
    connect_to_xdc_testnet env = ⟨some w3, true⟩ := by
  simp [connect_to_xdc_testnet, connect_body, pyCatch, h1, h2, h3, h4,
    bind, Except.bind, pure, Except.pure]

/-- Witness environment for C8: connected, but the node reports chain id 50. -/
def c8_conn_env : ConnEnv := ⟨.ok 3, fun _ => .ok true, fun _ => .ok 50⟩

/-- C8 witness: the mismatching chain id 50 still yields the handle, with the
warning recorded. -/
theorem c8_witness : connect_to_xdc_testnet c8_conn_env = ⟨some 3, true⟩ :=
  c8_chain_mismatch_warns_only c8_conn_env 3 50 rfl rfl rfl (by decide)

/-- C2: when the sender balance lookup returns `None`, or the looked-up
balance is below `amount + 21000 * gasPrice` (converted to XDC),
`send_xdc_transaction` returns a failure and neither signs nor broadcasts. -/
theorem c2_preflight_aborts (env : W3Env) (pk fa ta : String) (amt : ℚ) :
    (get_account_balance env.toBalEnv fa = none →
      send_xdc_transaction env pk fa ta amt = (none, ⟨0, 0⟩))
    ∧ (∀ (n : Nat) (b : ℚ), env.eth_gas_price = .ok n →
        get_account_balance env.toBalEnv fa = some b →
        b < amt + from_wei_ether
            (21000 * max n (to_wei_gwei MIN_GAS_PRICE_GWEI)) →
        send_xdc_transaction env pk fa ta amt = (none, ⟨0, 0⟩)) := by
  constructor
  · intro hb
    cases h1 : env.to_checksum_address fa with
    | error e => simp [send_xdc_transaction, send_body, h1, pyCatch]
    | ok fa' =>
      cases h2 : env.to_checksum_address ta with
      | error e => simp [send_xdc_transaction, send_body, h1, h2, pyCatch]
      | ok ta' =>
        cases h3 : env.get_transaction_count fa' with
        | error e =>
          simp [send_xdc_transaction, send_body, h1, h2, h3, pyCatch]
        | ok nonce =>
          cases h4 : ai_agent_optimize_gas_price env.eth_gas_price with
          | error e =>
            simp [send_xdc_transaction, send_body, h1, h2, h3, h4, pyCatch]
          | ok gp =>
            simp [send_xdc_transaction, send_body, h1, h2, h3, h4, hb,
              pyCatch]
  · intro n b hgas hb hlt
    cases h1 : env.to_checksum_address fa with
    | error e =>
      simp [get_account_balance, get_account_balance_body, pyCatch, h1,
        bind, Except.bind, Except.map] at hb
    | ok fa' =>
      cases h2 : env.to_checksum_address ta with
      | error e => simp [send_xdc_transaction, send_body, h1, h2, pyCatch]
      | ok ta' =>
        cases h3 : env.get_transaction_count fa' with
        | error e =>
          simp [send_xdc_transaction, send_body, h1, h2, h3, pyCatch]
        | ok nonce =>
          have h4 : ai_agent_optimize_gas_price env.eth_gas_price
              = .ok (max n (to_wei_gwei MIN_GAS_PRICE_GWEI)) := by
            rw [hgas]; exact ai_agent_max_eq n
          simp only [send_xdc_transaction, send_body, h1, h2, h3, h4, hb]
          rw [if_pos hlt]
          rfl

/-- Witness environment for C2: the balance read raises, so the lookup
returns `None`. -/
def c2_w3_env : W3Env where
  to_checksum_address := fun a => .ok a
  get_balance := fun _ => .error "RPC down"
  get_transaction_count := fun _ => .ok 0
  eth_gas_price := .ok 0
  chain_id := .ok 51
  sign_transaction := fun _ _ => .ok "raw"
  send_raw_transaction := fun _ => .ok "0xh"
  wait_for_transaction_receipt := fun _ => .ok ⟨1, 1, 21000⟩

/-- Witness environment for C2: the sender holds only 0.05 XDC. -/
def c2_poor_env : W3Env where
  to_checksum_address := fun a => .ok a
  get_balance := fun _ => .ok (5 * 10 ^ 16)
  get_transaction_count := fun _ => .ok 0
  eth_gas_price := .ok 0
  chain_id := .ok 51
  sign_transaction := fun _ _ => .ok "raw"
  send_raw_transaction := fun _ => .ok "0xh"
  wait_for_transaction_receipt := fun _ => .ok ⟨1, 1, 21000⟩

/-- C2 witness: a failed balance lookup, and a 0.05 XDC balance against a
90 XDC transfer; both abort with no signing and no broadcast. -/
theorem c2_witness :
    send_xdc_transaction c2_w3_env "k" "0xA" "0xB" 1 = (none, ⟨0, 0⟩)
    ∧ send_xdc_transaction c2_poor_env "k" "0xA" "0xB" 90 = (none, ⟨0, 0⟩) :=
  ⟨(c2_preflight_aborts c2_w3_env "k" "0xA" "0xB" 1).1 (by
      simp [get_account_balance, get_account_balance_body, c2_w3_env,
        pyCatch, bind, Except.bind, Except.map]),
   (c2_preflight_aborts c2_poor_env "k" "0xA" "0xB" 90).2 0 (1 / 20) rfl
     (by
       simp [get_account_balance, get_account_balance_body, c2_poor_env,
         pyCatch, bind, Except.bind, Except.map, from_wei_ether, pure,
         Except.pure]
       norm_num)
     (by norm_num [from_wei_ether, to_wei_gwei, MIN_GAS_PRICE_GWEI])⟩

/-- Counterexample environment for C3: a funded sender and a broadcast that
returns hash "0xabc123", but the receipt wait times out (raises). -/
def c3_env : W3Env where
  to_checksum_address := fun a => .ok a
  get_balance := fun _ => .ok (10 ^ 21)
  get_transaction_count := fun _ => .ok 7
  eth_gas_price := .ok (3 * 10 ^ 11)
  chain_id := .ok 51
  sign_transaction := fun _ _ => .ok "signedraw"
  send_raw_transaction := fun _ => .ok "0xabc123"
  wait_for_transaction_receipt := fun _ => .error "timeout"

/-- C3 counterexample: with the preflight passing, signing succeeding and the
broadcast returning hash "0xabc123", a receipt timeout makes
`send_xdc_transaction` return `None`: the timeout failure does NOT carry the
transaction identifier captured at broadcast, contrary to the claim. -/
theorem c3_counterexample :
    send_xdc_transaction c3_env "key" "0xfrom" "0xto" 1 = (none, ⟨1, 1⟩)
    ∧ c3_env.send_raw_transaction "signedraw" = .ok "0xabc123"
    ∧ ((send_xdc_transaction c3_env "key" "0xfrom" "0xto" 1).1).isSome
        = false := by
  have h : send_xdc_transaction c3_env "key" "0xfrom" "0xto" 1
      = (none, ⟨1, 1⟩) := by
    simp only [send_xdc_transaction, send_body, c3_env,
      ai_agent_optimize_gas_price, get_account_balance,
      get_account_balance_body, pyCatch, from_wei_ether, to_wei_gwei,
      MIN_GAS_PRICE_GWEI, bind, Except.bind, pure, Except.pure, Except.map]
    norm_num
  exact ⟨h, rfl, by rw [h]; rfl⟩

/-- C3 (amended): when the preflight passes and signing succeeds, exactly one
broadcast occurs; a success-status receipt makes the call return the
identifier captured at broadcast; a failure-status receipt or a receipt
timeout makes it return `None` — the identifier is only logged, not part of
the returned value. -/
theorem c3_amended_broadcast_once (env : W3Env) (pk fa ta : String)
    (amt : ℚ) (fa' ta' : String) (nonce n bw cid : Nat) (raw hsh : String)
    (h1 : env.to_checksum_address fa = .ok fa')
    (h2 : env.to_checksum_address ta = .ok ta')
    (h3 : env.get_transaction_count fa' = .ok nonce)
    (h4 : env.eth_gas_price = .ok n)
    (h5 : env.get_balance fa' = .ok bw)
    (h6 : ¬ (from_wei_ether bw < amt + from_wei_ether
        (21000 * max n (to_wei_gwei MIN_GAS_PRICE_GWEI))))
    (h7 : env.chain_id = .ok cid)
    (h8 : env.sign_transaction
        ⟨nonce, ta', to_wei_ether amt, 21000,
          max n (to_wei_gwei MIN_GAS_PRICE_GWEI), cid⟩ pk = .ok raw)
    (h9 : env.send_raw_transaction raw = .ok hsh) :
    (send_xdc_transaction env pk fa ta amt).2 = ⟨1, 1⟩
    ∧ (∀ r : Receipt, env.wait_for_transaction_receipt hsh = .ok r →
        r.status = 1 → (send_xdc_transaction env pk fa ta amt).1 = some hsh)
    ∧ (∀ r : Receipt, env.wait_for_transaction_receipt hsh = .ok r →
        r.status ≠ 1 → (send_xdc_transaction env pk fa ta amt).1 = none)
    ∧ (∀ e : PyErr, env.wait_for_transaction_receipt hsh = .error e →
        (send_xdc_transaction env pk fa ta amt).1 = none) := by
  have h4' : ai_agent_optimize_gas_price env.eth_gas_price
      = .ok (max n (to_wei_gwei MIN_GAS_PRICE_GWEI)) := by
    rw [h4]; exact ai_agent_max_eq n
  have hbal : get_account_balance env.toBalEnv fa
      = some (from_wei_ether bw) := by
    simp [get_account_balance, get_account_balance_body, h1, h5, pyCatch,
      bind, Except.bind, Except.map, pure, Except.pure]
  have key : send_xdc_transaction env pk fa ta amt
      = (match env.wait_for_transaction_receipt hsh with
         | .error _ => (none, ⟨1, 1⟩)
         | .ok receipt =>
           if receipt.status = 1 then (some hsh, ⟨1, 1⟩)
           else (none, ⟨1, 1⟩)) := by
    simp only [send_xdc_transaction, send_body, h1, h2, h3, h4', hbal, h7,
      h8, h9]
    rw [if_neg h6]
    cases hw : env.wait_for_transaction_receipt hsh with
    | error e => rfl
    | ok r =>
      by_cases hst : r.status = 1
      · simp [pyCatch, hst]
      · simp [pyCatch, hst]
  refine ⟨?_, fun r hw hst => ?_, fun r hw hst => ?_, fun e hw => ?_⟩
  · rw [key]
    cases hw : env.wait_for_transaction_receipt hsh with
    | error e => rfl
    | ok r =>
      by_cases hst : r.status = 1
      · simp [hst]
      · simp [hst]
  · rw [key, hw]; simp [hst]
  · rw [key, hw]; simp [hst]
  · rw [key, hw]

/-- Witness environment for the amended C3: a funded sender, broadcast hash
"0xabc123", and a success receipt in block 12. -/
def c3_ok_env : W3Env where
  to_checksum_address := fun a => .ok a
  get_balance := fun _ => .ok (10 ^ 21)
  get_transaction_count := fun _ => .ok 7
  eth_gas_price := .ok (3 * 10 ^ 11)
  chain_id := .ok 51
  sign_transaction := fun _ _ => .ok "signedraw"
  send_raw_transaction := fun _ => .ok "0xabc123"
  wait_for_transaction_receipt := fun _ => .ok ⟨1, 12, 21000⟩

/-- C3 (amended) witness: at `c3_ok_env` the call signs once, broadcasts
once, and returns the broadcast hash. -/
theorem c3_amended_witness :
    (send_xdc_transaction c3_ok_env "key" "0xfrom" "0xto" 1).2 = ⟨1, 1⟩
    ∧ (send_xdc_transaction c3_ok_env "key" "0xfrom" "0xto" 1).1
        = some "0xabc123" := by
  have h := c3_amended_broadcast_once c3_ok_env "key" "0xfrom" "0xto" 1
    "0xfrom" "0xto" 7 (3 * 10 ^ 11) (10 ^ 21) 51 "signedraw" "0xabc123"
    rfl rfl rfl rfl rfl
    (by norm_num [from_wei_ether, to_wei_gwei, MIN_GAS_PRICE_GWEI,
      Nat.max_def])
    rfl rfl rfl
  exact ⟨h.1, h.2.1 ⟨1, 12, 21000⟩ rfl rfl⟩

/-- C4: `send_xdc_transaction` returns a non-`None` value exactly when the
whole pipeline succeeds and the awaited receipt has status 1; the returned
value is then the broadcast transaction hash.  In every other outcome
(preflight abort, any raising step, a failure-status receipt, or a receipt
timeout) it returns `None`. -/
theorem c4_nonnull_iff_success_receipt (env : W3Env) (pk fa ta : String)
    (amt : ℚ) :
    (send_xdc_transaction env pk fa ta amt).1 ≠ none ↔
    ∃ (fa' ta' : String) (nonce n bw cid : Nat) (raw hsh : String)
      (r : Receipt),
      env.to_checksum_address fa = .ok fa'
      ∧ env.to_checksum_address ta = .ok ta'
      ∧ env.get_transaction_count fa' = .ok nonce
      ∧ env.eth_gas_price = .ok n
      ∧ env.get_balance fa' = .ok bw
      ∧ ¬ (from_wei_ether bw < amt + from_wei_ether
          (21000 * max n (to_wei_gwei MIN_GAS_PRICE_GWEI)))
      ∧ env.chain_id = .ok cid
      ∧ env.sign_transaction
          ⟨nonce, ta', to_wei_ether amt, 21000,
            max n (to_wei_gwei MIN_GAS_PRICE_GWEI), cid⟩ pk = .ok raw
      ∧ env.send_raw_transaction raw = .ok hsh
      ∧ env.wait_for_transaction_receipt hsh = .ok r
      ∧ r.status = 1
      ∧ (send_xdc_transaction env pk fa ta amt).1 = some hsh := by
  constructor
  · intro hne
    cases h1 : env.to_checksum_address fa with
    | error e => simp [send_xdc_transaction, send_body, h1, pyCatch] at hne
    | ok fa' =>
    cases h2 : env.to_checksum_address ta with
    | error e =>
      simp [send_xdc_transaction, send_body, h1, h2, pyCatch] at hne
    | ok ta' =>
    cases h3 : env.get_transaction_count fa' with
    | error e =>
      simp [send_xdc_transaction, send_body, h1, h2, h3, pyCatch] at hne
    | ok nonce =>
    cases h4 : env.eth_gas_price with
    | error e =>
      simp [send_xdc_transaction, send_body, h1, h2, h3, h4,
        ai_agent_optimize_gas_price, pyCatch] at hne
    | ok n =>
    have h4' : ai_agent_optimize_gas_price env.eth_gas_price
        = .ok (max n (to_wei_gwei MIN_GAS_PRICE_GWEI)) := by
      rw [h4]; exact ai_agent_max_eq n
    cases h5 : env.get_balance fa' with
    | error e =>
      have hbal : get_account_balance env.toBalEnv fa = none := by
        simp [get_account_balance, get_account_balance_body, h1, h5,
          pyCatch, bind, Except.bind, Except.map]
      simp [send_xdc_transaction, send_body, h1, h2, h3, h4', hbal,
        pyCatch] at hne
    | ok bw =>
    have hbal : get_account_balance env.toBalEnv fa
        = some (from_wei_ether bw) := by
      simp [get_account_balance, get_account_balance_body, h1, h5, pyCatch,
        bind, Except.bind, Except.map, pure, Except.pure]
    by_cases h6 : from_wei_ether bw < amt + from_wei_ether
        (21000 * max n (to_wei_gwei MIN_GAS_PRICE_GWEI))
    · simp only [send_xdc_transaction, send_body, h1, h2, h3, h4',
        hbal] at hne
      rw [if_pos h6] at hne
      exact absurd rfl hne
    · cases h7 : env.chain_id with
      | error e =>
        simp only [send_xdc_transaction, send_body, h1, h2, h3, h4',
          hbal, h7] at hne
        rw [if_neg h6] at hne
        exact absurd rfl hne
      | ok cid =>
      cases h8 : env.sign_transaction
          ⟨nonce, ta', to_wei_ether amt, 21000,
            max n (to_wei_gwei MIN_GAS_PRICE_GWEI), cid⟩ pk with
      | error e =>
        simp only [send_xdc_transaction, send_body, h1, h2, h3, h4',
          hbal, h7, h8] at hne
        rw [if_neg h6] at hne
        exact absurd rfl hne
      | ok raw =>
      cases h9 : env.send_raw_transaction raw with
      | error e =>
        simp only [send_xdc_transaction, send_body, h1, h2, h3, h4',
          hbal, h7, h8, h9] at hne
        rw [if_neg h6] at hne
        exact absurd rfl hne
      | ok hsh =>
      cases h10 : env.wait_for_transaction_receipt hsh with
      | error e =>
        simp only [send_xdc_transaction, send_body, h1, h2, h3, h4',
          hbal, h7, h8, h9, h10] at hne
        rw [if_neg h6] at hne
        exact absurd rfl hne
      | ok r =>
      by_cases hst : r.status = 1
      · refine ⟨fa', ta', nonce, n, bw, cid, raw, hsh, r, rfl, rfl, h3, rfl,
          h5, h6, rfl, h8, h9, h10, hst, ?_⟩
        simp only [send_xdc_transaction, send_body, h1, h2, h3, h4', hbal,
          h7, h8, h9, h10]
        rw [if_neg h6]
        simp [pyCatch, hst]
      · simp only [send_xdc_transaction, send_body, h1, h2, h3, h4', hbal,
          h7, h8, h9, h10] at hne
        rw [if_neg h6] at hne
        simp [pyCatch, hst] at hne
  · rintro ⟨fa', ta', nonce, n, bw, cid, raw, hsh, r, -, -, -, -, -, -, -,
      -, -, -, -, hlast⟩
    rw [hlast]
    exact Option.some_ne_none hsh

/-- Witness environment for C4: everything succeeds, broadcast hash
"0xcafe", success receipt in block 5. -/
def c4_env : W3Env where
  to_checksum_address := fun a => .ok a
  get_balance := fun _ => .ok (10 ^ 21)
  get_transaction_count := fun _ => .ok 0
  eth_gas_price := .ok (3 * 10 ^ 11)
  chain_id := .ok 51
  sign_transaction := fun _ _ => .ok "raw"
  send_raw_transaction := fun _ => .ok "0xcafe"
  wait_for_transaction_receipt := fun _ => .ok ⟨1, 5, 21000⟩

/-- C4 witness: at `c4_env` a success receipt yields a non-`None` return. -/
theorem c4_witness : (send_xdc_transaction c4_env "k" "0xA" "0xB" 2).1 ≠ none :=
  (c4_nonnull_iff_success_receipt c4_env "k" "0xA" "0xB" 2).mpr
    ⟨"0xA", "0xB", 0, 3 * 10 ^ 11, 10 ^ 21, 51, "raw", "0xcafe",
     ⟨1, 5, 21000⟩, rfl, rfl, rfl, rfl, rfl,
     (by norm_num [from_wei_ether, to_wei_gwei, MIN_GAS_PRICE_GWEI,
       Nat.max_def]),
     rfl, rfl, rfl, rfl, rfl,
     (by
       simp only [send_xdc_transaction, send_body, c4_env,
         ai_agent_optimize_gas_price, get_account_balance,
         get_account_balance_body, pyCatch, from_wei_ether, to_wei_gwei,
         MIN_GAS_PRICE_GWEI, bind, Except.bind, pure, Except.pure,
         Except.map]
       norm_num)⟩
